import Mathlib

/-!
# Verification of the `async_cog` COG/TIFF metadata decoder

Shallow embedding of `src/async_cog/cog.py` (class `COGReader`): header
parsing, IFD (Image File Directory) chain traversal, and per-tag decoding
with inline-vs-pointer value resolution, for both the classic TIFF variant
(version 42, 4-byte pointers) and the BigTIFF variant (version 43, 8-byte
pointers).

Bytes are modelled as `Nat` values (each `< 256` in well-formed data);
a byte buffer is a `List Nat`.  Python's arbitrary-precision integers
returned by `struct.unpack` of unsigned formats are modelled as `Nat`,
cast to `Int` where the Python code compares against `0`.

The repository's `async_cog/ifd.py` (the `IFD` and `Tag` pydantic models
with the tag-type byte-size table) is not part of the sources provided;
definitions derived from it are marked `Modelled from the spec:` below.
-/

namespace AsyncCog

/-- A byte buffer.  Each element is a single byte value. -/
abbrev Bytes := List Nat

/-- Byte order selected by the two-byte marker in the first header:
`"II"` → little-endian (`self._byte_order_fmt = "<"`),
`"MM"` → big-endian (`self._byte_order_fmt = ">"`). -/
inductive ByteOrder where
  | little
  | big
deriving DecidableEq, Repr

/-- Format variant derived from the version field (spec vocabulary for
`is_bigtiff`): 42 → Classic TIFF, 43 → Extended (BigTIFF). -/
inductive FormatVariant where
  | classic
  | extended
deriving DecidableEq, Repr

/-- `is_bigtiff` property of `COGReader`: `self._version == 43`. -/
def is_bigtiff (version : Nat) : Bool := version == 43

/-- The spec's FormatVariant, determined exactly by `is_bigtiff`. -/
def format_variant (version : Nat) : FormatVariant :=
  if is_bigtiff version then .extended else .classic

/-- Little-endian unsigned decode of a byte buffer
(`struct.unpack("<" + fmt, data)` for an unsigned integer format). -/
def uintLE : Bytes → Nat
  | [] => 0
  | b :: bs => b + 256 * uintLE bs

/-- Big-endian unsigned decode of a byte buffer
(`struct.unpack(">" + fmt, data)` for an unsigned integer format). -/
def uintBE (bs : Bytes) : Nat :=
  bs.foldl (fun acc b => 256 * acc + b) 0

/-- Unsigned decode with the session byte order, as produced by
`self._format(...)` prefixing `"<"` or `">"` to the format string. -/
def uintDec : ByteOrder → Bytes → Nat
  | .little, bs => uintLE bs
  | .big, bs => uintBE bs

/-- Little-endian encode of `v` into `w` bytes.  This models Python's
`struct.pack(fmt, v)` *without* a byte-order prefix, i.e. native byte
order, which is little-endian on the x86-64/aarch64 hosts the package
targets (the `pack(self._pointer_fmt, pointer)` call in
`_tag_from_tag_data` does not apply `self._format`). -/
def packLE : Nat → Nat → Bytes
  | 0, _ => []
  | w + 1, v => v % 256 :: packLE w (v / 256)

/-- Pointer width in bytes: `calcsize(self._pointer_fmt)` where
`_pointer_fmt` is `"Q"` (8) for BigTIFF and `"I"` (4) for classic TIFF,
as assigned in `_read_header`. -/
def pointer_width (version : Nat) : Nat :=
  if is_bigtiff version then 8 else 4

/-- Tag-count width in bytes: `calcsize(self._n_fmt)` where `_n_fmt` is
`"Q"` (8) for BigTIFF and `"H"` (2) for classic TIFF. -/
def count_width (version : Nat) : Nat :=
  if is_bigtiff version then 8 else 2

/-- Size of one tag record: `calcsize(self._tag_format)` with
`_tag_format = "HH2" + pointer_fmt`, i.e. 2 + 2 + 2·pointer_width. -/
def tag_size (version : Nat) : Nat :=
  2 + 2 + 2 * pointer_width version

/-- Failure conditions of the decoder.  In the Python code both are
raised as `AssertionError` and surfaced by `__aenter__` as
`ValueError("Invalid file format")`; we keep them distinguishable:
`malformed` for the header/layout assertions (the spec's
`MalformedHeader`) and `transport` for a failed byte-range fetch (the
spec's `TransportError`, the `assert response.ok` path). -/
inductive Err where
  | malformed
  | transport
deriving DecidableEq, Repr

/-- Modelled from the spec: the Byte-Range Source (the external aiohttp
transport consumed by `COGReader._read`, which requests
`Range: bytes=offset-(offset+size-1)` and checks `response.ok`).  Given
the full resource content `data`, it returns exactly `size` bytes
starting at `offset`, and fails when the resource cannot supply them. -/
def fetch (data : Bytes) (offset size : Nat) : Option Bytes :=
  if offset + size ≤ data.length then
    some ((data.drop offset).take size)
  else
    none

/-- `COGReader._read`: one byte-range fetch, failing (`Err.transport`)
when the response is unavailable or short. -/
def read (data : Bytes) (offset size : Nat) : Except Err Bytes :=
  match fetch data offset size with
  | some bs => .ok bs
  | none => .error .transport

/-- Result of `_read_first_header` and the second-header readers:
byte order, version, and pointer to the first IFD. -/
structure Header where
  byteOrder : ByteOrder
  version : Nat
  first_ifd_pointer : Nat
deriving DecidableEq, Repr

/-- `_read_first_header`: fetch 4 bytes at offset 0; bytes [0:2] must be
`b"II"` (0x49 0x49) or `b"MM"` (0x4D 0x4D), selecting the byte order;
bytes [2:4] decoded with that order must be version 42 or 43. -/
def read_first_header (data : Bytes) : Except Err (ByteOrder × Nat) :=
  match read data 0 4 with
  | .error e => .error e
  | .ok bs =>
    match
      (if bs.take 2 = [0x49, 0x49] then some ByteOrder.little
       else if bs.take 2 = [0x4D, 0x4D] then some ByteOrder.big
       else none) with
    | none => .error .malformed
    | some bo =>
      let version := uintDec bo (bs.drop 2)
      if version = 42 ∨ version = 43 then .ok (bo, version)
      else .error .malformed

/-- `_read_second_header` (classic TIFF): fetch
`calcsize("<I") = 4` bytes at offset 4, decode as the first-IFD pointer. -/
def read_second_header (data : Bytes) (bo : ByteOrder) : Except Err Nat :=
  match read data 4 4 with
  | .error e => .error e
  | .ok bs => .ok (uintDec bo bs)

/-- `_read_bigtiff_second_header`: fetch `calcsize("HHQ") = 12` bytes at
offset 4: 2-byte pointer byte-size (must be 8), 2-byte placeholder
(must be 0), 8-byte first-IFD pointer. -/
def read_bigtiff_second_header (data : Bytes) (bo : ByteOrder) :
    Except Err Nat :=
  match read data 4 12 with
  | .error e => .error e
  | .ok bs =>
    let bytesize := uintDec bo (bs.take 2)
    let placeholder := uintDec bo ((bs.drop 2).take 2)
    let pointer := uintDec bo (bs.drop 4)
    if bytesize = 8 ∧ placeholder = 0 then .ok pointer
    else .error .malformed

/-- `_read_header`: first header, then the variant-specific second
header (`_read_bigtiff_second_header` when `is_bigtiff`). -/
def read_header (data : Bytes) : Except Err Header :=
  match read_first_header data with
  | .error e => .error e
  | .ok (bo, version) =>
    match
      (if is_bigtiff version then read_bigtiff_second_header data bo
       else read_second_header data bo) with
    | .error e => .error e
    | .ok pointer => .ok ⟨bo, version, pointer⟩

/-- Modelled from the spec: the per-type byte sizes of the known tag
type table (`TAG_TYPES` in the repository's `async_cog/ifd.py`, not in
the provided sources).  Standard TIFF/BigTIFF value types; the spec
fixes type 3 (SHORT) at 2 bytes.  A type id outside the table has no
entry, which makes `Tag` construction fail with the recoverable
`UnknownTagType` signal (`ValueError`). -/
def tag_type_size : Nat → Option Nat
  | 1 => some 1   -- BYTE
  | 2 => some 1   -- ASCII
  | 3 => some 2   -- SHORT
  | 4 => some 4   -- LONG
  | 5 => some 8   -- two LONGs
  | 6 => some 1   -- SBYTE
  | 7 => some 1   -- UNDEFINED
  | 8 => some 2   -- SSHORT
  | 9 => some 4   -- SLONG
  | 10 => some 8  -- two SLONGs
  | 11 => some 4  -- FLOAT
  | 12 => some 8  -- DOUBLE
  | 16 => some 8  -- LONG8
  | 17 => some 8  -- SLONG8
  | 18 => some 8  -- IFD8
  | _ => none

/-- The decoded tag entry (`Tag` model of `async_cog/ifd.py`): numeric
code, type id, value count, and either a pointer to the value bytes or
the inline value bytes themselves. -/
structure Tag where
  code : Nat
  type : Nat
  n_values : Nat
  pointer : Option Nat
  data : Option Bytes
deriving DecidableEq, Repr

/-- Modelled from the spec: `Tag.data_size` of `async_cog/ifd.py` — the
total value byte size, per-type byte size times value count. -/
def Tag.data_size (t : Tag) : Nat :=
  (tag_type_size t.type).getD 0 * t.n_values

/-- `_tag_from_tag_data`: unpack `(code, type, n_values, pointer)` with
`self._tag_format`, construct the `Tag` (failing with the recoverable
`UnknownTagType` signal when the type id is not in the table), then, if
`tag.data_size <= calcsize(self._pointer_fmt)`, overwrite: the inline
data is `pack(self._pointer_fmt, pointer)[: tag.data_size]` — a
*native-order* (little-endian) re-encode of the decoded slot integer —
and the pointer is cleared. -/
def tag_from_tag_data (bo : ByteOrder) (version : Nat) (tag_data : Bytes) :
    Option Tag :=
  let pw := pointer_width version
  let code := uintDec bo (tag_data.take 2)
  let tag_type := uintDec bo ((tag_data.drop 2).take 2)
  let n_values := uintDec bo ((tag_data.drop 4).take pw)
  let pointer := uintDec bo ((tag_data.drop (4 + pw)).take pw)
  match tag_type_size tag_type with
  | none => none
  | some sz =>
    let data_size := sz * n_values
    if data_size ≤ pw then
      some { code := code, type := tag_type, n_values := n_values,
             pointer := none,
             data := some ((packLE pw pointer).take data_size) }
    else
      some { code := code, type := tag_type, n_values := n_values,
             pointer := some pointer, data := none }

/-- Split a buffer into `n` chunks of `size` bytes each
(`unpack(n_tags * f"{size}s", tags_data)` in `_tags_from_data`). -/
def chunks (size : Nat) : Nat → Bytes → List Bytes
  | 0, _ => []
  | n + 1, bs => bs.take size :: chunks size n (bs.drop size)

/-- `_tags_from_data`: split the tag block into `n_tags` tag-sized
records and decode each; records whose decode fails (`ValueError`,
the `UnknownTagType` signal) are silently skipped (`continue`). -/
def tags_from_data (bo : ByteOrder) (version : Nat) (n_tags : Nat)
    (tags_data : Bytes) : List Tag :=
  (chunks (tag_size version) n_tags tags_data).filterMap
    (tag_from_tag_data bo version)

/-- One decoded directory (`IFD` model of `async_cog/ifd.py`): its own
offset, declared tag count, next-IFD pointer, and surviving tags. -/
structure IFD where
  offset : Nat
  n_tags : Nat
  next_ifd_pointer : Nat
  tags : List Tag
deriving DecidableEq, Repr

/-- `_read_ifd`: read `count_width` bytes at `ifd_pointer` for the tag
count `n`, then one combined read of `n * tag_size + pointer_width`
bytes at `ifd_pointer + count_width` holding the concatenated tag
records followed by the next-IFD pointer. -/
def read_ifd (data : Bytes) (bo : ByteOrder) (version : Nat)
    (ifd_pointer : Nat) : Except Err IFD :=
  match read data ifd_pointer (count_width version) with
  | .error e => .error e
  | .ok n_data =>
    let n_tags := uintDec bo n_data
    let tags_len := n_tags * tag_size version
    let ifd_offset := ifd_pointer + count_width version
    match read data ifd_offset (tags_len + pointer_width version) with
    | .error e => .error e
    | .ok ifd_data =>
      let tags_data := ifd_data.take tags_len
      let pointer := uintDec bo (ifd_data.drop tags_len)
      .ok { offset := ifd_pointer, n_tags := n_tags,
            next_ifd_pointer := pointer,
            tags := tags_from_data bo version n_tags tags_data }

/-- `_read_idfs`: walk the IFD chain from `pointer` while
`pointer > 0` (a Python `int` comparison, hence over `Int`), decoding
each directory and following its `next_ifd_pointer`.  The Python loop
has no bound, so the embedding takes explicit fuel; `none` means the
fuel ran out before the loop terminated (the Python code would still be
iterating), never a decode outcome. -/
def read_idfs_fuel (data : Bytes) (bo : ByteOrder) (version : Nat) :
    Nat → Int → Option (Except Err (List IFD))
  | 0, p => if p > 0 then none else some (.ok [])
  | fuel + 1, p =>
    if p > 0 then
      match read_ifd data bo version p.toNat with
      | .error e => some (.error e)
      | .ok ifd =>
        match read_idfs_fuel data bo version fuel
            (ifd.next_ifd_pointer : Int) with
        | none => none
        | some (.error e) => some (.error e)
        | some (.ok rest) => some (.ok (ifd :: rest))
    else some (.ok [])

/-- The parse performed inside `__aenter__`: `_read_header` followed by
`_read_idfs` from the first-IFD pointer. -/
def read_all (data : Bytes) (fuel : Nat) :
    Option (Except Err (Header × List IFD)) :=
  match read_header data with
  | .error e => some (.error e)
  | .ok h =>
    match read_idfs_fuel data h.byteOrder h.version fuel
        (h.first_ifd_pointer : Int) with
    | none => none
    | some (.error e) => some (.error e)
    | some (.ok ifds) => some (.ok (h, ifds))

/-- Outcome of a scoped session: the parse result and whether the
transport connection was released when the scope was left. -/
structure SessionResult where
  result : Except Err (Header × List IFD)
  connection_released : Bool
deriving Repr

/-- Models `async with COGReader(url) as reader: ...` for a body that
only inspects the parsed result.  `__aenter__` first creates the
`ClientSession` (acquiring the transport connection), then runs the
parse; on failure it raises `ValueError` out of `__aenter__` itself.
Python's `with`/`async with` protocol invokes `__aexit__` — the only
place `self._client.close()` is called — only when `__aenter__`
returned normally, so on the failure path the connection created at the
top of `__aenter__` is never closed. -/
def scoped_session (data : Bytes) (fuel : Nat) : Option SessionResult :=
  match read_all data fuel with
  | none => none
  | some (.error e) => some ⟨.error e, false⟩
  | some (.ok r) => some ⟨.ok r, true⟩

/-! ## Concrete inputs used by the scenarios -/

/-- Classic little-endian header: `b"II"`, version 42, first IFD at 8. -/
def classicData : Bytes := [0x49, 0x49, 42, 0, 8, 0, 0, 0]

/-- BigTIFF big-endian header: `b"MM"`, version 43, pointer size 8,
reserved 0, first IFD at 16. -/
def extData : Bytes :=
  [0x4D, 0x4D, 0, 43, 0, 8, 0, 0, 0, 0, 0, 0, 0, 0, 0, 16]

/-- Same BigTIFF header but with pointer byte-size field 4. -/
def extBadData : Bytes :=
  [0x4D, 0x4D, 0, 43, 0, 4, 0, 0, 0, 0, 0, 0, 0, 0, 0, 16]

/-- A 12-byte resource: BigTIFF first header followed by exactly 8 more
bytes, so that a fetch of 8 bytes at offset 4 would succeed but a fetch
of 12 bytes at offset 4 cannot. -/
def extShortData : Bytes := [0x4D, 0x4D, 0, 43, 0, 8, 0, 0, 0, 0, 0, 0]

/-- Classic little-endian tag record: code 256, type 3 (SHORT),
count 1, inline value 512 stored in the slot's leading bytes. -/
def tagRecLE : Bytes := [0, 1, 3, 0, 1, 0, 0, 0, 0, 2, 0, 0]

/-- The same logical tag in a big-endian file: code 256, type 3,
count 1, value 512 stored big-endian in the slot's leading bytes. -/
def tagRecBE : Bytes := [1, 0, 0, 3, 0, 0, 0, 1, 2, 0, 0, 0]

/-- Expected decode of `tagRecLE`: inline 2-byte value 512, no pointer. -/
def tagLE : Tag := ⟨256, 3, 1, none, some [0, 2]⟩

/-- Classic little-endian file with a two-directory chain:
directory A at offset 8 (0 tags, next = 14), directory B at offset 14
(0 tags, next = 0). -/
def chainData : Bytes :=
  [0x49, 0x49, 42, 0, 8, 0, 0, 0, 0, 0, 14, 0, 0, 0, 0, 0, 0, 0, 0, 0]

/-- First directory of `chainData`. -/
def dirA : IFD := ⟨8, 0, 14, []⟩

/-- Second (terminal) directory of `chainData`. -/
def dirB : IFD := ⟨14, 0, 0, []⟩

/-- Three concatenated classic tag records: a valid SHORT tag
(code 256, value 512), a tag with unknown type id 99, and another valid
SHORT tag (code 258, value 1). -/
def tagsBlockC4 : Bytes :=
  [0, 1, 3, 0, 1, 0, 0, 0, 0, 2, 0, 0] ++
  [1, 1, 99, 0, 1, 0, 0, 0, 0, 0, 0, 0] ++
  [2, 1, 3, 0, 1, 0, 0, 0, 1, 0, 0, 0]

/-- Classic little-endian file: directory 1 at offset 8 declares 3 tags
(`tagsBlockC4`, the middle one of unknown type) and links to directory 2
at offset 50, which has 0 tags and terminates the chain. -/
def unknownTagData : Bytes :=
  [0x49, 0x49, 42, 0, 8, 0, 0, 0] ++ [3, 0] ++ tagsBlockC4 ++
  [50, 0, 0, 0] ++ [0, 0, 0, 0, 0, 0]

/-- Expected decode of directory 1 of `unknownTagData`: 3 declared tags
but only the 2 known-type tags survive, in on-disk order. -/
def dirU1 : IFD :=
  ⟨8, 3, 50, [⟨256, 3, 1, none, some [0, 2]⟩, ⟨258, 3, 1, none, some [1, 0]⟩]⟩

/-- Expected decode of directory 2 of `unknownTagData`. -/
def dirU2 : IFD := ⟨50, 0, 0, []⟩

/-! ## Claims -/

/-! ## Helper lemmas -/

/-- `packLE` always produces exactly `w` bytes. -/
theorem packLE_length : ∀ w v, (packLE w v).length = w
  | 0, _ => rfl
  | w + 1, v => by simp [packLE, packLE_length w]

/-- `chunks` always produces exactly `n` chunks. -/
theorem chunks_length (size : Nat) :
    ∀ (n : Nat) (bs : Bytes), (chunks size n bs).length = n
  | 0, _ => rfl
  | n + 1, bs => by simp [chunks, chunks_length size n]

/-- If some element of a list is rejected by `f`, then `filterMap f`
strictly shrinks the list. -/
theorem length_filterMap_lt {α β : Type} (f : α → Option β) :
    ∀ l : List α, (∃ a ∈ l, f a = none) →
      (l.filterMap f).length < l.length := by
  intro l
  induction l with
  | nil => rintro ⟨a, ha, -⟩; exact absurd ha (by simp)
  | cons x xs ih =>
    rintro ⟨a, ha, hfa⟩
    rcases List.mem_cons.mp ha with rfl | hmem
    · rw [List.filterMap_cons_none hfa]
      have := List.length_filterMap_le f xs
      simp only [List.length_cons]
      omega
    · cases hfx : f x with
      | none =>
        rw [List.filterMap_cons_none hfx]
        have := List.length_filterMap_le f xs
        simp only [List.length_cons]
        omega
      | some b =>
        rw [List.filterMap_cons_some hfx]
        simp only [List.length_cons]
        exact Nat.succ_lt_succ (ih ⟨a, hmem, hfa⟩)

/-- A completed chain walk can only return the empty chain when the
starting pointer already failed the `pointer > 0` test. -/
theorem read_idfs_fuel_ok_nil {data : Bytes} {bo : ByteOrder}
    {version : Nat} :
    ∀ (fuel : Nat) (p : Int),
      read_idfs_fuel data bo version fuel p = some (.ok []) → p ≤ 0 := by
  intro fuel p h
  cases fuel with
  | zero =>
    by_cases hp : p > 0
    · simp [read_idfs_fuel, hp] at h
    · omega
  | succ n =>
    by_cases hp : p > 0
    · simp only [read_idfs_fuel, if_pos hp] at h
      split at h
      · simp at h
      · split at h
        · simp at h
        · simp at h
        · simp at h
    · omega

/-- In a completed, non-empty chain walk the last directory is the one
whose next-IFD pointer failed the `pointer > 0` test, i.e. is 0. -/
theorem read_idfs_fuel_last {data : Bytes} {bo : ByteOrder}
    {version : Nat} :
    ∀ (fuel : Nat) (p : Int) (ifds : List IFD),
      read_idfs_fuel data bo version fuel p = some (.ok ifds) →
      ∀ hne : ifds ≠ [], (ifds.getLast hne).next_ifd_pointer = 0 := by
  intro fuel
  induction fuel with
  | zero =>
    intro p ifds h hne
    by_cases hp : p > 0
    · simp [read_idfs_fuel, hp] at h
    · simp only [read_idfs_fuel, if_neg hp, Option.some.injEq,
        Except.ok.injEq] at h
      exact absurd h.symm hne
  | succ n ih =>
    intro p ifds h hne
    by_cases hp : p > 0
    · simp only [read_idfs_fuel, if_pos hp] at h
      split at h
      · simp at h
      · rename_i ifd hifd
        split at h
        · simp at h
        · simp at h
        · rename_i rest hrec
          simp only [Option.some.injEq, Except.ok.injEq] at h
          subst h
          cases rest with
          | nil =>
            have hle : (ifd.next_ifd_pointer : Int) ≤ 0 :=
              read_idfs_fuel_ok_nil n _ hrec
            have h0 : ifd.next_ifd_pointer = 0 := by omega
            simpa [List.getLast] using h0
          | cons b bs =>
            rw [List.getLast_cons (by simp)]
            exact ih _ _ hrec (by simp)
    · simp only [read_idfs_fuel, if_neg hp, Option.some.injEq,
        Except.ok.injEq] at h
      exact absurd h.symm hne

/-- A successful first-header decode only ever reports version 42 or 43. -/
theorem read_first_header_version {data : Bytes} {bo : ByteOrder}
    {version : Nat}
    (h : read_first_header data = .ok (bo, version)) :
    version = 42 ∨ version = 43 := by
  simp only [read_first_header] at h
  split at h
  · simp at h
  · split at h
    · simp at h
    · split at h
      · rename_i hv
        simp only [Except.ok.injEq, Prod.mk.injEq] at h
        obtain ⟨-, rfl⟩ := h
        exact hv
      · simp at h

/-- Claim C2 — the code violates it (`code_bug`).  The inline branch of
`_tag_from_tag_data` stores `pack(self._pointer_fmt, pointer)[: tag.data_size]`,
re-encoding in *native* (little-endian) byte order the integer that was
decoded from the slot with the *session* byte order.  For a little-endian
file this reproduces the raw slot bytes, and the claim's classic scenario
(code=256, type=3, count=1, value=512) indeed decodes to the inline
2-byte value 512.  But for a big-endian file the bytes come out reversed:
the same logical tag decodes with inline bytes `[0, 0]`, while the raw
on-disk slot bytes truncated to the 2-byte value size are `[2, 0]`
(the value 512 big-endian).  So the inline value does not equal the raw
slot bytes truncated "for both byte orders". -/
theorem claim_C2_inline_bytes_native_order :
    tag_from_tag_data .little 42 tagRecLE = some tagLE
    ∧ uintDec .little [0, 2] = 512
    ∧ tagLE.pointer = none
    ∧ tag_from_tag_data .big 42 tagRecBE = some ⟨256, 3, 1, none, some [0, 0]⟩
    ∧ (tagRecBE.drop 8).take 2 = [2, 0]
    ∧ uintDec .big [2, 0] = 512
    ∧ ([0, 0] : Bytes) ≠ [2, 0] :=
  ⟨rfl, rfl, rfl, rfl, rfl, rfl, by decide⟩

/-- Claim C5: the header decoder selects the byte order from the two-byte
marker (`b"II"` little, `b"MM"` big) and fails with `MalformedHeader`
(`Err.malformed`) on any other marker; the classic header
`b"II"` + 42 + offset 8 decodes to little-endian, Classic, offset 8. -/
theorem claim_C5_header_marker :
    (∀ data : Bytes, 4 ≤ data.length →
        data.take 2 ≠ [0x49, 0x49] → data.take 2 ≠ [0x4D, 0x4D] →
        read_first_header data = .error .malformed)
    ∧ read_header classicData = .ok ⟨.little, 42, 8⟩
    ∧ format_variant 42 = .classic := by
  refine ⟨?_, rfl, rfl⟩
  intro data hlen h1 h2
  have hfetch : fetch data 0 4 = some (data.take 4) := by
    simp [fetch, hlen]
  have htake : (data.take 4).take 2 = data.take 2 := by
    rw [List.take_take]
    norm_num
  simp [read_first_header, read, hfetch, htake, h1, h2]

/-- Witness for claim C5 at the all-zero marker. -/
theorem claim_C5_witness :
    read_first_header [0, 0, 0, 0] = .error .malformed :=
  claim_C5_header_marker.1 [0, 0, 0, 0] (by decide) (by decide) (by decide)

/-- Claim C6 counterexample: the claim says the extended second-header
decode "fetches 8 bytes at offset 4", but `_read_bigtiff_second_header`
fetches `calcsize("HHQ") = 12` bytes at offset 4 (2 + 2 + 8).  On a
12-byte resource, where 8 bytes are available at offset 4 but 12 are
not, the decode fails with a transport error instead of proceeding. -/
theorem claim_C6_counterexample :
    extShortData.length = 12 ∧ 4 + 8 ≤ extShortData.length
    ∧ read_header extShortData = .error .transport :=
  ⟨rfl, by decide, rfl⟩

/-- Claim C6 as amended: the extended second-header decode fetches
12 bytes at offset 4, laid out as a 2-byte pointer byte-size field, a
2-byte reserved field, and an 8-byte first-directory offset; it fails
with `MalformedHeader` unless the pointer byte-size field is 8 and the
reserved field is 0, and otherwise returns the 8-byte field; the
`b"MM"` + 43 + (8, 0, 16) header yields (Big, Extended, 16), while
pointer size 4 fails with `MalformedHeader`. -/
theorem claim_C6_extended_header :
    (∀ (data : Bytes) (bo : ByteOrder) (bs : Bytes),
        fetch data 4 12 = some bs →
        (uintDec bo (bs.take 2) = 8 ∧ uintDec bo ((bs.drop 2).take 2) = 0 →
          read_bigtiff_second_header data bo = .ok (uintDec bo (bs.drop 4)))
        ∧ ((uintDec bo (bs.take 2) ≠ 8 ∨ uintDec bo ((bs.drop 2).take 2) ≠ 0) →
          read_bigtiff_second_header data bo = .error .malformed))
    ∧ read_header extData = .ok ⟨.big, 43, 16⟩
    ∧ format_variant 43 = .extended
    ∧ read_header extBadData = .error .malformed := by
  refine ⟨?_, rfl, rfl, rfl⟩
  intro data bo bs hf
  constructor
  · rintro ⟨h8, h0⟩
    simp [read_bigtiff_second_header, read, hf, h8, h0]
  · rintro (hb | hb) <;> simp [read_bigtiff_second_header, read, hf, hb]

/-- Witness for claim C6 at the valid extended header. -/
theorem claim_C6_witness :
    read_bigtiff_second_header extData .big =
      .ok (uintDec .big (([0, 8, 0, 0, 0, 0, 0, 0, 0, 0, 0, 16] : Bytes).drop 4)) :=
  (claim_C6_extended_header.1 extData .big
    [0, 8, 0, 0, 0, 0, 0, 0, 0, 0, 0, 16] rfl).1 (by decide)

/-- Claim C8: a byte-range fetch with positive length either returns
exactly `size` bytes starting at `offset` or fails the call with a
transport error; it never returns a short buffer. -/
theorem claim_C8_read_exact (data : Bytes) (offset size : Nat)
    (hpos : 0 < size) :
    (∀ bs, read data offset size = .ok bs →
        bs.length = size ∧ ∀ i, i < size → bs[i]? = data[offset + i]?)
    ∧ (data.length < offset + size →
        read data offset size = .error .transport) := by
  constructor
  · intro bs hbs
    by_cases hc : offset + size ≤ data.length
    · have hb : bs = (data.drop offset).take size := by
        simp [read, fetch, hc] at hbs
        exact hbs.symm
      subst hb
      refine ⟨?_, ?_⟩
      · simp only [List.length_take, List.length_drop]
        omega
      · intro i hi
        rw [List.getElem?_take_of_lt hi, List.getElem?_drop]
    · simp [read, fetch, hc] at hbs
  · intro hshort
    have hc : ¬ (offset + size ≤ data.length) := by omega
    simp [read, fetch, hc]

/-- Witness for claim C8 at a 3-byte resource. -/
theorem claim_C8_witness :
    ([6, 7] : Bytes).length = 2
    ∧ ∀ i, i < 2 → ([6, 7] : Bytes)[i]? = ([5, 6, 7] : Bytes)[1 + i]? :=
  (claim_C8_read_exact [5, 6, 7] 1 2 (by decide)).1 [6, 7] rfl

/-- Claim C9 — the code violates it (`code_bug`).  `__aenter__` first
creates the `ClientSession` and then parses; when the parse fails it
raises `ValueError` out of `__aenter__`, and Python's `async with`
protocol does not call `__aexit__` (the only place the client is
closed) when `__aenter__` raises.  Evaluating the session model on a
malformed header shows the failure exit path with the connection not
released. -/
theorem claim_C9_connection_leaked_on_failure :
    scoped_session [0, 0, 0, 0] 0 =
      some ⟨.error .malformed, false⟩ := rfl

/-- Claim C10: every decoded next-directory offset is an unsigned decode
and hence non-negative as a Python integer, so the chain walker's
`pointer > 0` continuation condition fails exactly when the
next-directory offset equals 0. -/
theorem claim_C10_next_pointer_unsigned (data : Bytes) (bo : ByteOrder)
    (version : Nat) (p : Nat) (ifd : IFD)
    (h : read_ifd data bo version p = .ok ifd) :
    (0 : Int) ≤ (ifd.next_ifd_pointer : Int)
    ∧ (¬ ((ifd.next_ifd_pointer : Int) > 0) ↔ ifd.next_ifd_pointer = 0) := by
  constructor <;> omega

/-- Witness for claim C10 at the first directory of `chainData`. -/
theorem claim_C10_witness :
    (0 : Int) ≤ (dirA.next_ifd_pointer : Int)
    ∧ (¬ ((dirA.next_ifd_pointer : Int) > 0) ↔ dirA.next_ifd_pointer = 0) :=
  claim_C10_next_pointer_unsigned chainData .little 42 8 dirA rfl

/-- Claim C1: every successfully decoded tag entry has exactly one of
inline value and pointer populated — the inline value (of exactly
`data_size` bytes) with a cleared pointer when the computed value byte
size is at most the pointer width, and a pointer with no inline value
when it exceeds the pointer width; a value byte size of 0 is inline
with a zero-length value. -/
theorem claim_C1_inline_xor_pointer (bo : ByteOrder) (version : Nat)
    (td : Bytes) (t : Tag)
    (h : tag_from_tag_data bo version td = some t) :
    (t.data_size ≤ pointer_width version →
      (∃ v, t.data = some v ∧ v.length = t.data_size) ∧ t.pointer = none)
    ∧ (pointer_width version < t.data_size →
      (∃ ptr, t.pointer = some ptr) ∧ t.data = none)
    ∧ (t.data_size = 0 → t.data = some []) := by
  simp only [tag_from_tag_data] at h
  split at h
  · simp at h
  · rename_i sz hty
    split at h
    · rename_i hle
      simp only [Option.some.injEq] at h
      subst h
      refine ⟨fun _ => ⟨⟨_, rfl, ?_⟩, rfl⟩, fun hgt => ?_, fun h0 => ?_⟩
      · simp only [Tag.data_size, hty, Option.getD_some, List.length_take,
          packLE_length]
        omega
      · exact absurd hgt
          (by simp only [Tag.data_size, hty, Option.getD_some]; omega)
      · simp only [Tag.data_size, hty, Option.getD_some] at h0
        simp [h0]
    · rename_i hgt
      simp only [Option.some.injEq] at h
      subst h
      refine ⟨fun hle => ?_, fun _ => ⟨⟨_, rfl⟩, rfl⟩, fun h0 => ?_⟩
      · exact absurd hle
          (by simp only [Tag.data_size, hty, Option.getD_some]; omega)
      · exfalso
        simp only [Tag.data_size, hty, Option.getD_some] at h0
        omega

/-- Witness for claim C1 at the classic SHORT tag record. -/
theorem claim_C1_witness :
    tagLE.data_size ≤ pointer_width 42
    ∧ ((∃ v, tagLE.data = some v ∧ v.length = tagLE.data_size)
        ∧ tagLE.pointer = none) :=
  ⟨by decide,
   (claim_C1_inline_xor_pointer .little 42 tagRecLE tagLE rfl).1 (by decide)⟩

/-- Claim C3: the chain walker follows next-directory offsets while the
pointer is positive, appending directories in link order; whenever the
walk completes with a non-empty chain, the last directory is exactly the
one whose next-directory field is 0, and the concrete two-directory
chain `A.next = offset(B)`, `B.next = 0` yields `[A, B]`. -/
theorem claim_C3_chain_walk :
    (∀ (data : Bytes) (bo : ByteOrder) (version fuel : Nat) (p : Int)
        (ifds : List IFD),
        read_idfs_fuel data bo version fuel p = some (.ok ifds) →
        ∀ hne : ifds ≠ [], (ifds.getLast hne).next_ifd_pointer = 0)
    ∧ read_all chainData 2 = some (.ok (⟨.little, 42, 8⟩, [dirA, dirB]))
    ∧ dirA.next_ifd_pointer = dirB.offset ∧ dirB.next_ifd_pointer = 0 :=
  ⟨fun _ _ _ fuel p ifds h hne => read_idfs_fuel_last fuel p ifds h hne,
   rfl, rfl, rfl⟩

/-- Witness for claim C3 at the two-directory chain. -/
theorem claim_C3_witness :
    (([dirA, dirB].getLast (List.cons_ne_nil dirA [dirB]))).next_ifd_pointer
      = 0 :=
  claim_C3_chain_walk.1 chainData .little 42 2 8 [dirA, dirB] rfl
    (List.cons_ne_nil dirA [dirB])

/-- Claim C4: a tag record with an unknown type id is a recoverable
per-tag failure: whenever some record of a directory's tag block fails
to decode, the directory yields strictly fewer surviving entries than
its declared tag count; in the concrete file, directory 1 declares 3
tags, the middle record (type 99) fails, the two surviving tags appear
in on-disk order, and the subsequent directory still decodes, the parse
completing normally. -/
theorem claim_C4_unknown_tag_dropped :
    (∀ (bo : ByteOrder) (version n_tags : Nat) (tags_data : Bytes),
        (∃ c ∈ chunks (tag_size version) n_tags tags_data,
          tag_from_tag_data bo version c = none) →
        (tags_from_data bo version n_tags tags_data).length < n_tags)
    ∧ read_all unknownTagData 2 = some (.ok (⟨.little, 42, 8⟩, [dirU1, dirU2]))
    ∧ dirU1.n_tags = 3 ∧ dirU1.tags.length = 2
    ∧ tag_from_tag_data .little 42 [1, 1, 99, 0, 1, 0, 0, 0, 0, 0, 0, 0]
        = none := by
  refine ⟨?_, rfl, rfl, rfl, rfl⟩
  intro bo version n_tags tags_data hex
  have hlt := length_filterMap_lt (tag_from_tag_data bo version) _ hex
  rw [chunks_length] at hlt
  simpa [tags_from_data] using hlt

/-- Witness for claim C4 at the three-record tag block with the
unknown-type middle record. -/
theorem claim_C4_witness :
    (tags_from_data .little 42 3 tagsBlockC4).length < 3 :=
  claim_C4_unknown_tag_dropped.1 .little 42 3 tagsBlockC4 (by decide)

/-- Claim C7: every successfully decoded header binds the field widths
of its variant — pointer width 4 and count width 2 for version 42
(Classic), both 8 for version 43 (Extended); these are the widths the
embedding threads into every directory and tag decode. -/
theorem claim_C7_field_widths (data : Bytes) (h : Header)
    (hok : read_header data = .ok h) :
    (format_variant h.version = .classic →
      h.version = 42 ∧ pointer_width h.version = 4
      ∧ count_width h.version = 2)
    ∧ (format_variant h.version = .extended →
      h.version = 43 ∧ pointer_width h.version = 8
      ∧ count_width h.version = 8) := by
  have hv : h.version = 42 ∨ h.version = 43 := by
    simp only [read_header] at hok
    split at hok
    · simp at hok
    · rename_i bo version hfh
      split at hok
      · simp at hok
      · simp only [Except.ok.injEq] at hok
        subst hok
        exact read_first_header_version hfh
  rcases hv with hv | hv <;>
    simp [format_variant, is_bigtiff, pointer_width, count_width, hv]

/-- Witness for claim C7 at the classic little-endian header. -/
theorem claim_C7_witness :
    (format_variant (Header.mk .little 42 8).version = .classic →
      (Header.mk .little 42 8).version = 42
      ∧ pointer_width (Header.mk .little 42 8).version = 4
      ∧ count_width (Header.mk .little 42 8).version = 2)
    ∧ (format_variant (Header.mk .little 42 8).version = .extended →
      (Header.mk .little 42 8).version = 43
      ∧ pointer_width (Header.mk .little 42 8).version = 8
      ∧ count_width (Header.mk .little 42 8).version = 8) :=
  claim_C7_field_widths classicData ⟨.little, 42, 8⟩ rfl

end AsyncCog
